import Mathlib

/-!
Verification of the particle taxonomy and registry builder of
`plasmapy/atomic/particles.py`.

The Python module builds, at import time, a `_ParticleZooClass` taxonomy of
sixteen particle-symbol strings and then a registry `_Particles`, a dict of
dicts mapping each symbol to its physical-property record.  Both are embedded
here shallowly: Python sets become lists of strings (iteration order over a
Python set is unspecified, so the build is parametrised by the order in which
each set is traversed, and order-independence is proved); a particle record
(a Python dict from field-name strings to heterogeneous values) becomes a
function from a `Field` enumeration to `Option Val`; the top-level dict
becomes a function `String → Option Record`.
-/

namespace Particles

/-- The heterogeneous values stored in a particle record.  `str` covers the
name and class strings, `num` the dimensionless rationals (spin, charge,
lepton number, baryon number, generation), `m_e`/`m_p`/`m_n` the symbolic
astropy constants `const.m_e`, `const.m_p`, `const.m_n`, `kg q` a literal
mass in kilograms, `sec q` a literal half-life in seconds, `infSec` the
value `np.inf * u.s`, `noneV` the Python `None` sentinel used for the
unknown neutrino mass, and `bool` the antimatter flag. -/
inductive Val where
  | str (s : String)
  | num (q : ℚ)
  | m_e
  | m_p
  | m_n
  | kg (q : ℚ)
  | sec (q : ℚ)
  | infSec
  | noneV
  | bool (b : Bool)
deriving DecidableEq, Repr

/-- The field names of a particle record: the string keys `'name'`,
`'class'`, `'spin'`, `'charge'`, `'lepton number'`, `'baryon number'`,
`'generation'`, `'mass'`, `'half-life'`, `'antimatter'` of the Python
per-particle dicts. -/
inductive Field where
  | name
  | «class»
  | spin
  | charge
  | leptonNumber
  | baryonNumber
  | generation
  | mass
  | halfLife
  | antimatter
deriving DecidableEq, Fintype, Repr

/-- A particle record: a Python dict from field names to values.  A field
absent from the dict is `none`. -/
def Record : Type := Field → Option Val

instance : DecidableEq Record :=
  fun r₁ r₂ => Fintype.decidablePiFintype r₁ r₂

/-- The empty record `dict()`. -/
def emptyRec : Record := fun _ => none

/-- The top-level `Particles` dict: symbols not in the dict map to `none`. -/
def Registry : Type := String → Option Record

/-- `leptons = {'e-', 'mu-', 'tau-', 'nu_e', 'nu_mu', 'nu_tau'}`. -/
def leptonsL : List String := ["e-", "mu-", "tau-", "nu_e", "nu_mu", "nu_tau"]

/-- `antileptons = {'e+', 'mu+', 'tau+', 'anti_nu_e', 'anti_nu_mu',
'anti_nu_tau'}`. -/
def antileptonsL : List String :=
  ["e+", "mu+", "tau+", "anti_nu_e", "anti_nu_mu", "anti_nu_tau"]

/-- `baryons = {'p+', 'n'}`. -/
def baryonsL : List String := ["p+", "n"]

/-- `antibaryons = {'p-', 'antineutron'}`. -/
def antibaryonsL : List String := ["p-", "antineutron"]

/-- `particles = leptons | baryons`. -/
def particlesL : List String := leptonsL ++ baryonsL

/-- `antiparticles = antileptons | antibaryons`. -/
def antiparticlesL : List String := antileptonsL ++ antibaryonsL

/-- `fermions = leptons | antileptons | baryons | antibaryons`. -/
def fermionsL : List String := leptonsL ++ antileptonsL ++ baryonsL ++ antibaryonsL

/-- `bosons = set()`. -/
def bosonsL : List String := []

/-- Python substring containment `needle in hay` on strings. -/
def strContains (hay needle : String) : Bool :=
  hay.toList.tails.any fun t => needle.toList.isPrefixOf t

/-- `neutrinos = {lepton for lepton in leptons if 'nu' in lepton}`. -/
def neutrinosL : List String := leptonsL.filter fun s => strContains s "nu"

/-- `antineutrinos = {antilepton for antilepton in antileptons if 'nu' in
antilepton}`. -/
def antineutrinosL : List String :=
  antileptonsL.filter fun s => strContains s "nu"

/-- `ParticleZoo.everything = matter | antimatter`. -/
def everythingL : List String := particlesL ++ antiparticlesL

/-- The union `ParticleZoo.leptons | ParticleZoo.antileptons` iterated over
by the generation and lepton-mass passes. -/
def lepAntilepL : List String := leptonsL ++ antileptonsL

/-- The union `ParticleZoo.neutrinos | ParticleZoo.antineutrinos`. -/
def neutAntineutL : List String := neutrinosL ++ antineutrinosL

/-- The `_taxonomy_dict` of `_ParticleZooClass.__init__`, as an association
list from classification-name keys to the classified symbol sets. -/
def taxonomy_dict : List (String × List String) :=
  [("lepton", leptonsL),
   ("antilepton", antileptonsL),
   ("baryon", baryonsL),
   ("antibaryon", antibaryonsL),
   ("fermion", fermionsL),
   ("boson", bosonsL),
   ("neutrino", neutrinosL),
   ("antineutrinos", antineutrinosL),
   ("matter", particlesL),
   ("antimatter", antiparticlesL)]

/-- The keys of `_taxonomy_dict`. -/
def taxonomyKeys : List String := taxonomy_dict.map Prod.fst

/-- The `symbols_and_names` list of `_create_Particles_dict`. -/
def symbols_and_names : List (String × String) :=
  [("e-", "electron"),
   ("e+", "positron"),
   ("mu-", "muon"),
   ("mu+", "antimuon"),
   ("tau-", "tau"),
   ("tau+", "antitau"),
   ("nu_e", "electron neutrino"),
   ("anti_nu_e", "electron antineutrino"),
   ("nu_mu", "muon neutrino"),
   ("anti_nu_mu", "muon antineutrino"),
   ("nu_tau", "tau neutrino"),
   ("anti_nu_tau", "tau antineutrino"),
   ("p+", "proton"),
   ("p-", "antiproton"),
   ("n", "neutron"),
   ("antineutron", "antineutron")]

/-- `Particles[f] = v` on one record: dict item assignment. -/
def setF (f : Field) (v : Val) (r : Record) : Record :=
  fun g => if g = f then some v else r g

/-- `Particles[s][...] = ...`: apply an update to the record stored at key
`s`, leaving the registry unchanged at every other key. -/
def updateKey (s : String) (g : Record → Record) (m : Registry) : Registry :=
  fun t => if t = s then (m t).map g else m t

/-- A derivation pass: one `for` loop over a set of symbols (given as the
traversal-order list `l`), applying the per-symbol update `upd`. -/
def applyPass (upd : String → Record → Record) (l : List String)
    (m : Registry) : Registry :=
  l.foldl (fun acc s => updateKey s (upd s) acc) m

/-- `for thing in ParticleZoo.everything: Particles[thing] = dict()`. -/
def initPass (l : List String) (m : Registry) : Registry :=
  l.foldl (fun acc s => fun t => if t = s then some emptyRec else acc t) m

/-- `for symbol, name in symbols_and_names: Particles[symbol]['name'] =
name`. -/
def namesPass (m : Registry) : Registry :=
  symbols_and_names.foldl
    (fun acc p => updateKey p.1 (setF .name (.str p.2)) acc) m

/-- `Particles[fermion]['spin'] = 0.5`. -/
def fermionUpd (_s : String) (r : Record) : Record :=
  setF .spin (.num (mkRat 1 2)) r

/-- `Particles[boson]['spin'] = 0`. -/
def bosonUpd (_s : String) (r : Record) : Record :=
  setF .spin (.num 0) r

/-- The body of the lepton pass: class, lepton number, baryon number, and
charge `-1` when the lepton is not a neutrino, else `0`. -/
def leptonUpd (s : String) (r : Record) : Record :=
  let r := setF .«class» (.str "lepton") r
  let r := setF .leptonNumber (.num 1) r
  let r := setF .baryonNumber (.num 0) r
  if s ∉ neutrinosL then setF .charge (.num (-1)) r
  else setF .charge (.num 0) r

/-- The body of the antilepton pass: class, lepton number, baryon number,
and charge `1` when the antilepton is not an antineutrino, else `0`. -/
def antileptonUpd (s : String) (r : Record) : Record :=
  let r := setF .«class» (.str "antilepton") r
  let r := setF .leptonNumber (.num (-1)) r
  let r := setF .baryonNumber (.num 0) r
  if s ∉ antineutrinosL then setF .charge (.num 1) r
  else setF .charge (.num 0) r

/-- The body of the baryon pass: class, lepton number `0`, baryon number
`1`; no charge is assigned here. -/
def baryonUpd (_s : String) (r : Record) : Record :=
  let r := setF .«class» (.str "baryon") r
  let r := setF .leptonNumber (.num 0) r
  setF .baryonNumber (.num 1) r

/-- The body of the antibaryon pass: class, lepton number `0`, baryon number
`-1`; no charge is assigned here. -/
def antibaryonUpd (_s : String) (r : Record) : Record :=
  let r := setF .«class» (.str "antibaryon") r
  let r := setF .leptonNumber (.num 0) r
  setF .baryonNumber (.num (-1)) r

/-- The generation pass body: `if 'e' in thing: ... elif 'mu' in thing: ...
elif 'tau' in thing: ...`. -/
def generationUpd (s : String) (r : Record) : Record :=
  if strContains s "e" then setF .generation (.num 1) r
  else if strContains s "mu" then setF .generation (.num 2) r
  else if strContains s "tau" then setF .generation (.num 3) r
  else r

/-- The charged-lepton mass pass body: guarded by `'nu' not in thing`, sets
the electron, muon or tau mass, and the muon/tau half-lives. -/
def leptonMassUpd (s : String) (r : Record) : Record :=
  if !(strContains s "nu") then
    if strContains s "e" then setF .mass .m_e r
    else if strContains s "mu" then
      setF .halfLife (.sec (mkRat 21969811 (10 ^ 13)))
        (setF .mass (.kg (mkRat 1883531594 (10 ^ 37))) r)
    else if strContains s "tau" then
      setF .halfLife (.sec (mkRat 2906 (10 ^ 16)))
        (setF .mass (.kg (mkRat 316747 (10 ^ 32))) r)
    else r
  else r

/-- `Particles[thing]['mass'] = None` for neutrinos and antineutrinos. -/
def neutrinoMassUpd (_s : String) (r : Record) : Record :=
  setF .mass .noneV r

/-- `Particles[thing]['mass'] = const.m_p` for `['p+', 'p-']`. -/
def protonMassUpd (_s : String) (r : Record) : Record :=
  setF .mass .m_p r

/-- `Particles['p+']['charge'] = 1` then `Particles['p-']['charge'] = -1`. -/
def protonChargePass (m : Registry) : Registry :=
  updateKey "p-" (setF .charge (.num (-1)))
    (updateKey "p+" (setF .charge (.num 1)) m)

/-- The neutron pass body for `['n', 'antineutron']`: neutron mass,
half-life `881.5 * u.s`, charge `0`. -/
def neutronUpd (_s : String) (r : Record) : Record :=
  let r := setF .mass .m_n r
  let r := setF .halfLife (.sec (mkRat 8815 10)) r
  setF .charge (.num 0) r

/-- The default half-life pass body: `if 'half-life' not in
Particles[thing].keys(): Particles[thing]['half-life'] = np.inf * u.s`. -/
def halfLifeDefaultUpd (_s : String) (r : Record) : Record :=
  if r .halfLife = none then setF .halfLife .infSec r else r

/-- `Particles[particle]['antimatter'] = False`. -/
def matterUpd (_s : String) (r : Record) : Record :=
  setF .antimatter (.bool false) r

/-- `Particles[antiparticle]['antimatter'] = True`. -/
def antimatterUpd (_s : String) (r : Record) : Record :=
  setF .antimatter (.bool true) r

/-- One traversal-order list per `for` loop over a Python set in
`_create_Particles_dict` (loops over literal lists are fixed and need no
order parameter). -/
structure Orders where
  everythingO : List String
  fermionsO : List String
  bosonsO : List String
  leptonsO : List String
  antileptonsO : List String
  baryonsO : List String
  antibaryonsO : List String
  genO : List String
  lepMassO : List String
  neutMassO : List String
  halfLifeO : List String
  particlesO : List String
  antiparticlesO : List String

/-- The traversal orders are permutations of the corresponding sets: this is
exactly what Python guarantees about iterating over a set. -/
def Orders.Valid (o : Orders) : Prop :=
  o.everythingO.Perm everythingL ∧
  o.fermionsO.Perm fermionsL ∧
  o.bosonsO.Perm bosonsL ∧
  o.leptonsO.Perm leptonsL ∧
  o.antileptonsO.Perm antileptonsL ∧
  o.baryonsO.Perm baryonsL ∧
  o.antibaryonsO.Perm antibaryonsL ∧
  o.genO.Perm lepAntilepL ∧
  o.lepMassO.Perm lepAntilepL ∧
  o.neutMassO.Perm neutAntineutL ∧
  o.halfLifeO.Perm everythingL ∧
  o.particlesO.Perm particlesL ∧
  o.antiparticlesO.Perm antiparticlesL

/-- The state of the `Particles` dict after the twelfth pass (the proton
mass loop), immediately before `Particles['p+']['charge'] = 1`. -/
def preProtonCharge (o : Orders) : Registry :=
  applyPass protonMassUpd ["p+", "p-"]
   (applyPass neutrinoMassUpd o.neutMassO
    (applyPass leptonMassUpd o.lepMassO
     (applyPass generationUpd o.genO
      (applyPass antibaryonUpd o.antibaryonsO
       (applyPass baryonUpd o.baryonsO
        (applyPass antileptonUpd o.antileptonsO
         (applyPass leptonUpd o.leptonsO
          (applyPass bosonUpd o.bosonsO
           (applyPass fermionUpd o.fermionsO
            (namesPass
             (initPass o.everythingO (fun _ => none))))))))))))

/-- `_create_Particles_dict`, parametrised by the set-traversal orders: the
seventeen derivation passes applied in source order. -/
def buildWith (o : Orders) : Registry :=
  applyPass antimatterUpd o.antiparticlesO
   (applyPass matterUpd o.particlesO
    (applyPass halfLifeDefaultUpd o.halfLifeO
     (applyPass neutronUpd ["n", "antineutron"]
      (protonChargePass
       (preProtonCharge o)))))

/-- The canonical traversal orders: each set traversed in the order its
literal is written in the source. -/
def canonicalOrders : Orders :=
  ⟨everythingL, fermionsL, bosonsL, leptonsL, antileptonsL, baryonsL,
   antibaryonsL, lepAntilepL, lepAntilepL, neutAntineutL, everythingL,
   particlesL, antiparticlesL⟩

/-- The module-level `_Particles = _create_Particles_dict()`. -/
def _Particles : Registry := buildWith canonicalOrders

/-- Look up one field of one symbol's record in the built registry. -/
def fieldOf (s : String) (f : Field) : Option Val :=
  (_Particles s).bind fun r => r f

/-- A pass over a duplicate-free symbol list updates each listed record once
and leaves all other keys untouched. -/
theorem applyPass_lookup (upd : String → Record → Record) :
    ∀ (l : List String), l.Nodup → ∀ (m : Registry) (s : String),
      applyPass upd l m s = if s ∈ l then (m s).map (upd s) else m s := by
  intro l
  induction l with
  | nil => intro _ m s; simp [applyPass]
  | cons a t ih =>
    intro hnd m s
    rw [List.nodup_cons] at hnd
    have hstep : applyPass upd (a :: t) m
        = applyPass upd t (updateKey a (upd a) m) := rfl
    rw [hstep, ih hnd.2]
    by_cases hsa : s = a
    · subst hsa
      simp [updateKey, hnd.1]
    · simp [updateKey, hsa, List.mem_cons]

/-- The initialisation pass stores the empty record at each listed key. -/
theorem initPass_lookup :
    ∀ (l : List String) (m : Registry) (s : String),
      initPass l m s = if s ∈ l then some emptyRec else m s := by
  intro l
  induction l with
  | nil => intro m s; simp [initPass]
  | cons a t ih =>
    intro m s
    have hstep : initPass (a :: t) m
        = initPass t (fun u => if u = a then some emptyRec else m u) := rfl
    rw [hstep, ih]
    by_cases hsa : s = a
    · subst hsa; simp
    · simp [hsa, List.mem_cons]

/-- A pass is insensitive to the traversal order of its (duplicate-free)
symbol set. -/
theorem applyPass_perm (upd : String → Record → Record) {l₁ l₂ : List String}
    (hp : l₁.Perm l₂) (hnd : l₂.Nodup) (m : Registry) :
    applyPass upd l₁ m = applyPass upd l₂ m := by
  funext s
  rw [applyPass_lookup upd l₁ (hp.nodup_iff.mpr hnd) m s,
      applyPass_lookup upd l₂ hnd m s]
  simp only [hp.mem_iff]

/-- The initialisation pass is insensitive to traversal order. -/
theorem initPass_perm {l₁ l₂ : List String} (hp : l₁.Perm l₂) (m : Registry) :
    initPass l₁ m = initPass l₂ m := by
  funext s
  rw [initPass_lookup, initPass_lookup]
  simp only [hp.mem_iff]

/-- The registry state just before the proton-charge assignment does not
depend on the traversal orders. -/
theorem preProtonCharge_eq (o : Orders) (h : o.Valid) :
    preProtonCharge o = preProtonCharge canonicalOrders := by
  obtain ⟨h1, h2, h3, h4, h5, h6, h7, h8, h9, h10, _h11, _h12, _h13⟩ := h
  unfold preProtonCharge
  rw [initPass_perm h1,
      applyPass_perm fermionUpd h2 (by decide),
      applyPass_perm bosonUpd h3 (by decide),
      applyPass_perm leptonUpd h4 (by decide),
      applyPass_perm antileptonUpd h5 (by decide),
      applyPass_perm baryonUpd h6 (by decide),
      applyPass_perm antibaryonUpd h7 (by decide),
      applyPass_perm generationUpd h8 (by decide),
      applyPass_perm leptonMassUpd h9 (by decide),
      applyPass_perm neutrinoMassUpd h10 (by decide)]
  rfl

/-- The whole build does not depend on the traversal orders. -/
theorem buildWith_eq (o : Orders) (h : o.Valid) :
    buildWith o = buildWith canonicalOrders := by
  obtain ⟨h1, h2, h3, h4, h5, h6, h7, h8, h9, h10, h11, h12, h13⟩ := h
  unfold buildWith
  rw [preProtonCharge_eq o
        ⟨h1, h2, h3, h4, h5, h6, h7, h8, h9, h10, h11, h12, h13⟩,
      applyPass_perm halfLifeDefaultUpd h11 (by decide),
      applyPass_perm matterUpd h12 (by decide),
      applyPass_perm antimatterUpd h13 (by decide)]
  rfl

/-- The canonical traversal orders are valid. -/
theorem canonicalOrders_valid : canonicalOrders.Valid :=
  ⟨.refl _, .refl _, .refl _, .refl _, .refl _, .refl _, .refl _, .refl _,
   .refl _, .refl _, .refl _, .refl _, .refl _⟩

/-- The nine fields that the build assigns to every symbol in
`everything`. -/
def commonFields : List Field :=
  [.name, .«class», .spin, .charge, .leptonNumber, .baryonNumber, .mass,
   .halfLife, .antimatter]

/-- C1, counterexample: the record for `'p+'` exists in the built registry
but has no `'generation'` field, so not all ten fields are populated for
every symbol in `everything`. -/
theorem C1_counterexample :
    (_Particles "p+").isSome = true ∧
    fieldOf "p+" Field.generation = none := by
  exact ⟨rfl, rfl⟩

/-- C1, amended: after the build every symbol in `everything` has the nine
fields name, class, spin, charge, lepton number, baryon number, mass,
half-life and antimatter populated, and the generation field is populated
for the twelve lepton and antilepton symbols but absent from the records of
`'p+'`, `'p-'`, `'n'` and `'antineutron'`. -/
theorem C1_nine_fields_complete :
    (everythingL.all fun s =>
      commonFields.all fun f => (fieldOf s f).isSome) = true ∧
    (lepAntilepL.all fun s => (fieldOf s Field.generation).isSome) = true ∧
    (["p+", "p-", "n", "antineutron"].all fun s =>
      (fieldOf s Field.generation).isNone) = true := by
  exact ⟨rfl, rfl, rfl⟩

/-- C2, counterexample: immediately before the particle-specific proton
pass runs, the records for `'p+'` and `'p-'` exist but carry no charge
field at all — the generic class passes never assign a charge to them, so
the proton pass does not overwrite a generically assigned value. -/
theorem C2_counterexample :
    (preProtonCharge canonicalOrders "p+").isSome = true ∧
    (preProtonCharge canonicalOrders "p-").isSome = true ∧
    ((preProtonCharge canonicalOrders "p+").bind fun r => r Field.charge)
      = none ∧
    ((preProtonCharge canonicalOrders "p-").bind fun r => r Field.charge)
      = none := by
  exact ⟨rfl, rfl, rfl, rfl⟩

/-- C2, amended: the generic class passes assign no charge to `'p+'` or
`'p-'`; at the point the particle-specific proton pass runs their records
carry no charge field, and that pass performs the first assignment of
charge, `+1` for `'p+'` and `-1` for `'p-'`, which are also the charges in
the finished registry. -/
theorem C2_proton_charge_first_assigned (o : Orders) (h : o.Valid) :
    ((preProtonCharge o "p+").bind fun r => r Field.charge) = none ∧
    ((preProtonCharge o "p-").bind fun r => r Field.charge) = none ∧
    ((protonChargePass (preProtonCharge o) "p+").bind fun r =>
      r Field.charge) = some (Val.num 1) ∧
    ((protonChargePass (preProtonCharge o) "p-").bind fun r =>
      r Field.charge) = some (Val.num (-1)) ∧
    fieldOf "p+" Field.charge = some (Val.num 1) ∧
    fieldOf "p-" Field.charge = some (Val.num (-1)) := by
  rw [preProtonCharge_eq o h]
  exact ⟨rfl, rfl, rfl, rfl, rfl, rfl⟩

/-- C2, witness: the amended statement at the canonical orders. -/
theorem C2_proton_charge_first_assigned_witness :
    ((preProtonCharge canonicalOrders "p+").bind fun r => r Field.charge)
      = none ∧
    ((preProtonCharge canonicalOrders "p-").bind fun r => r Field.charge)
      = none ∧
    ((protonChargePass (preProtonCharge canonicalOrders) "p+").bind fun r =>
      r Field.charge) = some (Val.num 1) ∧
    ((protonChargePass (preProtonCharge canonicalOrders) "p-").bind fun r =>
      r Field.charge) = some (Val.num (-1)) ∧
    fieldOf "p+" Field.charge = some (Val.num 1) ∧
    fieldOf "p-" Field.charge = some (Val.num (-1)) :=
  C2_proton_charge_first_assigned canonicalOrders canonicalOrders_valid

/-- C3: the constructed taxonomy's keys are not the ten names the spec
enumerates — the key for the antineutrino classification is the plural
string `'antineutrinos'`, inconsistently with the nine other singular keys,
and `'antineutrino'` is not a key. -/
theorem C3_taxonomy_key_is_plural :
    "antineutrino" ∉ taxonomyKeys ∧
    "antineutrinos" ∈ taxonomyKeys ∧
    taxonomyKeys = ["lepton", "antilepton", "baryon", "antibaryon",
      "fermion", "boson", "neutrino", "antineutrinos", "matter",
      "antimatter"] := by
  refine ⟨by decide, by decide, rfl⟩

/-- C4: for every symbol among the leptons and antileptons exactly one of
the three substring tests `'e' in s`, `'mu' in s`, `'tau' in s` succeeds,
and the registry assigns generation 1 to the electron family, 2 to the muon
family and 3 to the tau family, so the no-match branch of the generation
pass is never taken. -/
theorem C4_generation_exactly_one_match :
    (lepAntilepL.all fun s =>
      ((if strContains s "e" then 1 else 0)
        + (if strContains s "mu" then 1 else 0)
        + (if strContains s "tau" then 1 else 0) : Nat) == 1) = true ∧
    (lepAntilepL.all fun s =>
      if strContains s "e" then
        decide (fieldOf s Field.generation = some (Val.num 1))
      else if strContains s "mu" then
        decide (fieldOf s Field.generation = some (Val.num 2))
      else
        decide (fieldOf s Field.generation = some (Val.num 3))) = true := by
  exact ⟨rfl, rfl⟩

/-- C5: each of the six neutrino and antineutrino symbols is built with
charge `0` and with the Python `None` mass sentinel, which in particular is
not the numeric value `0`. -/
theorem C5_neutrino_charge_and_mass :
    neutAntineutL.length = 6 ∧
    (neutAntineutL.all fun s =>
      decide (fieldOf s Field.charge = some (Val.num 0)) &&
      decide (fieldOf s Field.mass = some Val.noneV) &&
      decide (fieldOf s Field.mass ≠ some (Val.num 0))) = true := by
  exact ⟨rfl, rfl⟩

/-- C6: taxonomy invariants — matter and antimatter are disjoint and
partition `everything`; the fermion set is the union of the lepton,
antilepton, baryon and antibaryon sets; neutrinos are leptons and
antineutrinos are antileptons; and the boson set is empty. -/
theorem C6_taxonomy_invariants :
    (∀ s, s ∈ particlesL → s ∉ antiparticlesL) ∧
    (∀ s, s ∈ everythingL → ((s ∈ particlesL) ↔ s ∉ antiparticlesL)) ∧
    (∀ s, s ∈ fermionsL ↔
      (s ∈ leptonsL ∨ s ∈ antileptonsL ∨ s ∈ baryonsL ∨ s ∈ antibaryonsL)) ∧
    (∀ s, s ∈ neutrinosL → s ∈ leptonsL) ∧
    (∀ s, s ∈ antineutrinosL → s ∈ antileptonsL) ∧
    bosonsL = [] := by
  refine ⟨?_, ?_, ?_, ?_, ?_, rfl⟩
  · intro s hs
    fin_cases hs <;> decide
  · intro s hs
    fin_cases hs <;> decide
  · intro s
    simp [fermionsL, List.mem_append]
  · intro s hs
    exact List.mem_of_mem_filter hs
  · intro s hs
    exact List.mem_of_mem_filter hs

/-- C6, witness: the invariants applied to the concrete symbol `'e-'`. -/
theorem C6_taxonomy_invariants_witness :
    "e-" ∉ antiparticlesL ∧ ("e-" ∈ fermionsL ↔
      ("e-" ∈ leptonsL ∨ "e-" ∈ antileptonsL ∨ "e-" ∈ baryonsL ∨
        "e-" ∈ antibaryonsL)) :=
  ⟨C6_taxonomy_invariants.1 "e-" (by decide),
   C6_taxonomy_invariants.2.2.1 "e-"⟩

/-- C7: the neutron and antineutron are built with half-life `881.5 * u.s`
and charge `0`; the muon family with half-life `2.1969811e-6 * u.s`; the
tau family with half-life `2.906e-13 * u.s`; every other symbol in
`everything` gets the infinite-half-life sentinel `np.inf * u.s`. -/
theorem C7_half_lives :
    fieldOf "n" Field.halfLife = some (Val.sec (mkRat 8815 10)) ∧
    fieldOf "antineutron" Field.halfLife = some (Val.sec (mkRat 8815 10)) ∧
    fieldOf "n" Field.charge = some (Val.num 0) ∧
    fieldOf "antineutron" Field.charge = some (Val.num 0) ∧
    fieldOf "mu-" Field.halfLife = some (Val.sec (mkRat 21969811 (10 ^ 13))) ∧
    fieldOf "mu+" Field.halfLife = some (Val.sec (mkRat 21969811 (10 ^ 13))) ∧
    fieldOf "tau-" Field.halfLife = some (Val.sec (mkRat 2906 (10 ^ 16))) ∧
    fieldOf "tau+" Field.halfLife = some (Val.sec (mkRat 2906 (10 ^ 16))) ∧
    (["e-", "e+", "nu_e", "nu_mu", "nu_tau", "anti_nu_e", "anti_nu_mu",
      "anti_nu_tau", "p+", "p-"].all fun s =>
        decide (fieldOf s Field.halfLife = some Val.infSec)) = true := by
  exact ⟨rfl, rfl, rfl, rfl, rfl, rfl, rfl, rfl, rfl⟩

/-- C8: the registry build is deterministic — any two traversals of the
taxonomy's sets produce field-for-field identical records for every symbol
in `everything`. -/
theorem C8_build_deterministic (o₁ o₂ : Orders) (h₁ : o₁.Valid)
    (h₂ : o₂.Valid) (s : String) (_hs : s ∈ everythingL) :
    buildWith o₁ s = buildWith o₂ s := by
  rw [buildWith_eq o₁ h₁, buildWith_eq o₂ h₂]

/-- C8, witness: determinism applied at the canonical orders and the
symbol `'e-'`. -/
theorem C8_build_deterministic_witness :
    buildWith canonicalOrders "e-" = buildWith canonicalOrders "e-" :=
  C8_build_deterministic canonicalOrders canonicalOrders
    canonicalOrders_valid canonicalOrders_valid "e-" (by decide)

/-- The eight particle/antiparticle symbol pairs. -/
def antipairs : List (String × String) :=
  [("e-", "e+"), ("mu-", "mu+"), ("tau-", "tau+"), ("nu_e", "anti_nu_e"),
   ("nu_mu", "anti_nu_mu"), ("nu_tau", "anti_nu_tau"), ("p+", "p-"),
   ("n", "antineutron")]

/-- Two stored field values are numeric and negatives of one another. -/
def negNum : Option Val → Option Val → Bool
  | some (.num a), some (.num b) => decide (a = -b)
  | _, _ => false

/-- The particle/antiparticle relations of one pair over the built
registry: negated charge, lepton number and baryon number; equal (and
present) spin, mass and half-life; antimatter flag false for the particle
and true for the antiparticle. -/
def antipairOK (p : String × String) : Bool :=
  negNum (fieldOf p.1 Field.charge) (fieldOf p.2 Field.charge) &&
  negNum (fieldOf p.1 Field.leptonNumber) (fieldOf p.2 Field.leptonNumber) &&
  negNum (fieldOf p.1 Field.baryonNumber) (fieldOf p.2 Field.baryonNumber) &&
  decide (fieldOf p.1 Field.spin = fieldOf p.2 Field.spin) &&
  (fieldOf p.1 Field.spin).isSome &&
  decide (fieldOf p.1 Field.mass = fieldOf p.2 Field.mass) &&
  (fieldOf p.1 Field.mass).isSome &&
  decide (fieldOf p.1 Field.halfLife = fieldOf p.2 Field.halfLife) &&
  (fieldOf p.1 Field.halfLife).isSome &&
  decide (fieldOf p.1 Field.antimatter = some (Val.bool false)) &&
  decide (fieldOf p.2 Field.antimatter = some (Val.bool true))

/-- C9: every particle/antiparticle pair of the registry has negated
charge, lepton number and baryon number, equal spin, mass and half-life,
and antimatter flags `false`/`true` respectively. -/
theorem C9_antiparticle_pairs : antipairs.all antipairOK = true := by decide

/-- C10: after the build the four baryon and antibaryon records contain no
`'generation'` field, while all twelve lepton and antilepton records
do. -/
theorem C10_generation_only_for_leptons :
    fieldOf "p+" Field.generation = none ∧
    fieldOf "p-" Field.generation = none ∧
    fieldOf "n" Field.generation = none ∧
    fieldOf "antineutron" Field.generation = none ∧
    (lepAntilepL.all fun s => (fieldOf s Field.generation).isSome) = true := by
  exact ⟨rfl, rfl, rfl, rfl, rfl⟩

end Particles
